import Mathlib

/-!
Verification development for the beat-feed-flow repository.

The development shallowly embeds the two pieces of the repository that the
specification describes:

* `backend/main.py` — the HTTP request handler `analyze_audio` (here
  `analyze_audio_handler`, together with `analyze_audio_fallback`), its
  content-type and upload-size validation, the chroma-based key heuristic,
  the confidence formula, and the temporary-file lifecycle.
* `src/lib/audio_features.py` — the feature-vector assembly of
  `ComprehensiveAudioFeatureExtractor` (`extract_all_features` and the nine
  per-family extraction functions).

Floating-point values are modelled as exact rationals (`ℚ`).  Calls into the
external numeric libraries (librosa / numpy) are modelled as oracle data:
each family function receives the values the library returns (or an error,
standing for a raised exception), and the repository's own arithmetic,
branching, dictionary assembly and key naming are embedded directly.
Quantities that are irrational in general (standard deviations, `np.sqrt`
based RMS values) are carried as oracle-provided rationals.
-/

set_option maxRecDepth 8000

namespace BeatFeed

/-! ## Shared value types -/

/-- A Python exception, as observed by the handler's `try`/`except`:
either a `fastapi.HTTPException` (status code plus detail) or any other
exception (its message).  `except Exception` catches both. -/
inductive Exc where
  | http (status : Nat) (detail : String)
  | generic (msg : String)
deriving Repr, DecidableEq

/-- Python `str(e)`.  For a starlette/fastapi `HTTPException`,
`__str__` returns `f"{status_code}: {detail}"`; for a plain exception the
message itself. -/
def excStr : Exc → String
  | Exc.http s d => toString s ++ ": " ++ d
  | Exc.generic m => m

/-! ## backend/main.py — request model and upload validation -/

/-- An incoming `POST /analyze-audio` request.  The uploaded file is
represented by the sizes of the chunks successively returned by
`await file.read(8192)`; only sizes matter to the handler (the bytes are
written to a temporary file and then handed to librosa, which is an
oracle here). -/
structure UploadRequest where
  content_type : Option String
  chunks : List Nat
deriving Repr, DecidableEq

/-- The 50 MiB upload cap: `50 * 1024 * 1024` (main.py line 69). -/
def sizeLimit : Nat := 50 * 1024 * 1024

/-- Python: `if not file.content_type or not file.content_type.startswith('audio/')`.
`None` and the empty string are falsy; `startswith` is a character-prefix
test. -/
def contentTypeOk : Option String → Bool
  | none => false
  | some ct => ("audio/").toList.isPrefixOf ct.toList

/-- The chunked read loop of main.py lines 64-70: accumulate the size of
each chunk and raise `HTTPException(400, "File too large (max 50MB)")` as
soon as the running total exceeds the cap. -/
def readLoop : List Nat → Nat → Except Exc Nat
  | [], file_size => Except.ok file_size
  | c :: cs, file_size =>
    if file_size + c > sizeLimit then
      Except.error (Exc.http 400 "File too large (max 50MB)")
    else readLoop cs (file_size + c)

/-! ## backend/main.py — key heuristic (lines 98-128) -/

/-- The fixed chromatic name table of main.py line 99. -/
def key_mapping : List String :=
  ["C", "C#", "D", "D#", "E", "F"] ++ ["F#", "G", "G#", "A", "A#", "B"]

/-- `np.max` over a nonempty sequence (maximum element); 0 for the empty
sequence, which never occurs in the handler. -/
def npMax : List ℚ → ℚ
  | [] => 0
  | [x] => x
  | x :: y :: xs => max x (npMax (y :: xs))

/-- `np.argmax`: the index of the first occurrence of the maximum value. -/
def npArgmax (l : List ℚ) : Nat :=
  l.findIdx (fun v => decide (v = npMax l))

/-- `np.mean(chroma, axis=1)`: the per-row mean of a matrix given as a list
of rows (main.py line 102). -/
def npMeanAxis1 (m : List (List ℚ)) : List ℚ :=
  m.map (fun row => row.sum / (row.length : ℚ))

/-- The key heuristic of main.py lines 103-128 applied to the averaged
chroma profile: tonic = argmax, "Major" iff the energy at the major third
`(tonic+4) % 12` is strictly greater than at the minor third
`(tonic+3) % 12`, output `"<name> <Major|Minor>"`.  (The two `np.corrcoef`
values computed at lines 112-113 are dead: they are never read, and are
omitted here.) -/
def detect_key (chroma_avg : List ℚ) : String :=
  let key_index := npArgmax chroma_avg
  let detected_note := key_mapping.getD key_index ""
  let third_major := (key_index + 4) % 12
  let third_minor := (key_index + 3) % 12
  let major_strength := chroma_avg.getD third_major 0
  let minor_strength := chroma_avg.getD third_minor 0
  let scale_type := if major_strength > minor_strength then "Major" else "Minor"
  detected_note ++ " " ++ scale_type

/-- The confidence heuristic of main.py line 136:
`min(0.95, 0.7 + (np.std(spectral_centroid) / 1000) * 0.25)`, as a function
of the centroid standard deviation. -/
def confidence (centroidStd : ℚ) : ℚ :=
  min 0.95 (0.7 + centroidStd / 1000 * 0.25)

/-- Round-half-to-even on an exact rational, the idealisation of Python's
`round` on a real value. -/
def roundHalfEven (q : ℚ) : ℤ :=
  if q - (⌊q⌋ : ℚ) < 1/2 then ⌊q⌋
  else if (1:ℚ)/2 < q - (⌊q⌋ : ℚ) then ⌊q⌋ + 1
  else if ⌊q⌋ % 2 = 0 then ⌊q⌋ else ⌊q⌋ + 1

/-- Python `round(x, 2)`: round-half-to-even to two decimal places. -/
def pythonRound2 (q : ℚ) : ℚ := ((roundHalfEven (q * 100) : ℤ) : ℚ) / 100

/-! ## backend/main.py — the handler -/

/-- The JSON body returned on success (main.py lines 140-147 and 173-181). -/
structure AnalysisResponse where
  bpm : ℤ
  key : String
  confidence : ℚ
  sample_rate : Nat
  duration : ℚ
  analysis_method : String
  note : Option String
deriving Repr, DecidableEq

/-- What librosa computes for a decoded file, as oracle data: the decoded
length and sample rate from `librosa.load`, the scalar tempo from
`beat_track`, the chroma matrix (12 rows × frames) from `chroma_cqt`, and
the standard deviation of the spectral centroid (a `np.std`, carried as a
rational). -/
structure LibrosaData where
  audioLen : Nat
  sr : Nat
  tempo : ℚ
  chroma : List (List ℚ)
  centroidStd : ℚ
deriving Repr, DecidableEq

/-- Whether the librosa import succeeded at process start, and — when it
did — the outcome of loading and analysing the uploaded file (an error
stands for an exception raised by a librosa call). -/
inductive LibEnv where
  | unavailable
  | available (res : Except String LibrosaData)
deriving Repr

/-- The fallback analysis of main.py lines 158-181: fixed defaults plus a
duration estimated from the upload size as `file_size / (1024*1024) * 10`
seconds. -/
def analyze_audio_fallback (file_size : Nat) : AnalysisResponse :=
  { bpm := 120
    key := "C Major"
    confidence := 0.3
    sample_rate := 44100
    duration := (file_size : ℚ) / (1024 * 1024) * 10
    analysis_method := "fallback"
    note := some "Librosa not available - using estimated values" }

/-- The successful-analysis response of main.py lines 140-147, assembled
from the librosa oracle data. -/
def buildLibrosaResponse (d : LibrosaData) : AnalysisResponse :=
  { bpm := roundHalfEven d.tempo
    key := detect_key (npMeanAxis1 d.chroma)
    confidence := pythonRound2 (confidence d.centroidStd)
    sample_rate := d.sr
    duration := (d.audioLen : ℚ) / (d.sr : ℚ)
    analysis_method := "librosa"
    note := none }

/-- The body of the inner `try` of main.py lines 83-148: librosa load and
analysis; a librosa exception propagates as a generic exception. -/
def librosaTry : Except String LibrosaData → Except Exc AnalysisResponse
  | Except.error msg => Except.error (Exc.generic msg)
  | Except.ok d => Except.ok (buildLibrosaResponse d)

/-- Main.py lines 78-152: the temporary file is created
(`NamedTemporaryFile(delete=False)`), the inner `try` runs, and the
`finally` removes the file whenever it still exists.  The second component
tracks whether the temporary file is still present when control leaves
this region (on success or on exception). -/
def librosaPath (res : Except String LibrosaData) : Except Exc AnalysisResponse × Bool :=
  let tempFilePresent := true
  let result := librosaTry res
  let tempFilePresentAfterFinally := if tempFilePresent then false else tempFilePresent
  (result, tempFilePresentAfterFinally)

/-- Everything inside the outer `try` of `analyze_audio` (main.py lines
58-152): content-type validation, the chunked size check, then either the
fallback or the librosa path.  The second component reports whether a
temporary file is still present at exit. -/
def analyze_audio_inner (req : UploadRequest) (env : LibEnv) :
    Except Exc AnalysisResponse × Bool :=
  if contentTypeOk req.content_type then
    match readLoop req.chunks 0 with
    | Except.error e => (Except.error e, false)
    | Except.ok file_size =>
      match env with
      | LibEnv.unavailable => (Except.ok (analyze_audio_fallback file_size), false)
      | LibEnv.available res => librosaPath res
  else (Except.error (Exc.http 400 "File must be an audio file"), false)

/-- The full `analyze_audio` endpoint (main.py lines 53-156).  The outer
`except Exception as e` catches every exception raised inside the `try` —
including the `HTTPException(400, ...)` raised by the two validation
checks — and re-raises `HTTPException(500, f"Audio analysis failed: {str(e)}")`. -/
def analyze_audio_handler (req : UploadRequest) (env : LibEnv) :
    Except Exc AnalysisResponse × Bool :=
  match analyze_audio_inner req env with
  | (Except.ok r, b) => (Except.ok r, b)
  | (Except.error e, b) =>
      (Except.error (Exc.http 500 ("Audio analysis failed: " ++ excStr e)), b)

/-- The HTTP status the client observes: 200 on a normal return, the
exception's own status for an uncaught `HTTPException`, 500 for any other
uncaught exception. -/
def statusOf : Except Exc AnalysisResponse → Nat
  | Except.ok _ => 200
  | Except.error (Exc.http s _) => s
  | Except.error (Exc.generic _) => 500

/-! ## The size check: the loop aborts exactly when the total exceeds the cap -/

/-- If the running total plus the remaining bytes stays within the cap, the
read loop completes and returns the total size. -/
theorem readLoop_ok (cs : List Nat) (acc : Nat) (h : acc + cs.sum ≤ sizeLimit) :
    readLoop cs acc = Except.ok (acc + cs.sum) := by
  induction cs generalizing acc with
  | nil => simp [readLoop]
  | cons c cs ih =>
    simp only [List.sum_cons] at h
    have hc : ¬ acc + c > sizeLimit := by omega
    simp only [readLoop, if_neg hc]
    rw [ih (acc + c) (by omega)]
    congr 1
    simp [List.sum_cons]
    omega

/-- If the total exceeds the cap, the read loop aborts with the 400-flavoured
`HTTPException` (which the outer handler then rewraps). -/
theorem readLoop_err (cs : List Nat) (acc : Nat) (hacc : acc ≤ sizeLimit)
    (h : sizeLimit < acc + cs.sum) :
    readLoop cs acc = Except.error (Exc.http 400 "File too large (max 50MB)") := by
  induction cs generalizing acc with
  | nil => simp only [List.sum_nil, Nat.add_zero] at h; omega
  | cons c cs ih =>
    simp only [List.sum_cons] at h
    by_cases hc : acc + c > sizeLimit
    · simp [readLoop, if_pos hc]
    · simp only [readLoop, if_neg hc]
      exact ih (acc + c) (by omega) (by omega)

/-! ## Handler path lemmas -/

/-- A request whose content type is missing or does not start with `audio/`
is answered with status 500: the `HTTPException(400)` raised by the
validation check is caught by the blanket `except Exception` and rewrapped. -/
theorem handler_bad_content_type (ctOpt : Option String) (chunks : List Nat) (env : LibEnv)
    (hct : contentTypeOk ctOpt = false) :
    analyze_audio_handler { content_type := ctOpt, chunks := chunks } env =
      (Except.error (Exc.http 500 "Audio analysis failed: 400: File must be an audio file"),
       false) := by
  simp [analyze_audio_handler, analyze_audio_inner, hct, excStr]
  rfl

/-- An oversized upload is likewise answered with status 500: the
`HTTPException(400)` raised by the size check is caught and rewrapped. -/
theorem handler_oversize (ctOpt : Option String) (chunks : List Nat) (env : LibEnv)
    (hct : contentTypeOk ctOpt = true) (hsz : sizeLimit < chunks.sum) :
    analyze_audio_handler { content_type := ctOpt, chunks := chunks } env =
      (Except.error (Exc.http 500 "Audio analysis failed: 400: File too large (max 50MB)"),
       false) := by
  have hrl := readLoop_err chunks 0 (Nat.zero_le _) (by omega)
  simp [analyze_audio_handler, analyze_audio_inner, hct, hrl, excStr]
  rfl

/-- An accepted upload, with librosa missing, is answered by the fallback
analysis of the total uploaded size. -/
theorem handler_fallback_path (ctOpt : Option String) (chunks : List Nat)
    (hct : contentTypeOk ctOpt = true) (hsz : chunks.sum ≤ sizeLimit) :
    analyze_audio_handler { content_type := ctOpt, chunks := chunks } LibEnv.unavailable =
      (Except.ok (analyze_audio_fallback chunks.sum), false) := by
  have hrl := readLoop_ok chunks 0 (by omega)
  rw [Nat.zero_add] at hrl
  simp [analyze_audio_handler, analyze_audio_inner, hct, hrl]

/-- An accepted upload, with librosa present and the analysis succeeding,
is answered by the response assembled from the librosa results. -/
theorem handler_librosa_ok (ctOpt : Option String) (chunks : List Nat) (d : LibrosaData)
    (hct : contentTypeOk ctOpt = true) (hsz : chunks.sum ≤ sizeLimit) :
    analyze_audio_handler { content_type := ctOpt, chunks := chunks }
        (LibEnv.available (Except.ok d)) =
      (Except.ok (buildLibrosaResponse d), false) := by
  have hrl := readLoop_ok chunks 0 (by omega)
  rw [Nat.zero_add] at hrl
  simp [analyze_audio_handler, analyze_audio_inner, hct, hrl, librosaPath, librosaTry]

/-- The second component of the inner handler is `false` on every path: no
path leaves a temporary file behind. -/
theorem inner_snd_false (req : UploadRequest) (env : LibEnv) :
    (analyze_audio_inner req env).2 = false := by
  unfold analyze_audio_inner
  by_cases hct : contentTypeOk req.content_type
  · simp only [hct, if_true]
    rcases hr : readLoop req.chunks 0 with e | n
    · simp
    · cases env with
      | unavailable => simp
      | available res => simp [librosaPath]
  · simp [hct]

/-! ## Claims about the request handler's validation and lifecycle -/

/-- Claim C1.  The claim states that a request with a non-`audio/` content
type, or an oversized upload, is answered with status 400 and not 500.
The code contradicts this: both validation failures raise
`HTTPException(400, ...)` inside the outer `try`, whose blanket
`except Exception` catches them and re-raises
`HTTPException(500, "Audio analysis failed: ...")`.  This theorem evaluates
the handler at both failing inputs and shows the observed status is 500. -/
def chunks50MiB : List Nat := List.replicate 6400 8192

def chunks50MiBplus1 : List Nat := List.replicate 6400 8192 ++ [1]

theorem chunks50MiB_sum : chunks50MiB.sum = 50 * 1024 * 1024 := by
  rw [chunks50MiB, List.sum_replicate, smul_eq_mul]

theorem chunks50MiBplus1_sum : chunks50MiBplus1.sum = 50 * 1024 * 1024 + 1 := by
  rw [chunks50MiBplus1, List.sum_append, List.sum_replicate, smul_eq_mul]
  rfl

theorem C1_client_errors_surface_as_500 :
    (analyze_audio_handler ⟨some "text/plain", [100]⟩
        (LibEnv.available (Except.error "load failed"))).1 =
      Except.error (Exc.http 500 "Audio analysis failed: 400: File must be an audio file") ∧
    statusOf (analyze_audio_handler ⟨some "text/plain", [100]⟩
        (LibEnv.available (Except.error "load failed"))).1 = 500 ∧
    (analyze_audio_handler ⟨some "audio/mpeg", chunks50MiBplus1⟩
        (LibEnv.available (Except.error "load failed"))).1 =
      Except.error (Exc.http 500 "Audio analysis failed: 400: File too large (max 50MB)") ∧
    statusOf (analyze_audio_handler ⟨some "audio/mpeg", chunks50MiBplus1⟩
        (LibEnv.available (Except.error "load failed"))).1 = 500 := by
  have hover := handler_oversize (some "audio/mpeg") chunks50MiBplus1
    (LibEnv.available (Except.error "load failed")) (by decide)
    (by rw [chunks50MiBplus1_sum]; simp [sizeLimit])
  refine ⟨rfl, rfl, ?_, ?_⟩
  · rw [hover]
  · rw [hover]
    rfl

/-- A concrete librosa analysis outcome, used to exercise the accepted-upload
path of the handler. -/
def dC5 : LibrosaData :=
  { audioLen := 22050, sr := 22050, tempo := 120,
    chroma := List.replicate 12 [1], centroidStd := 0 }

/-- Claim C5.  The size check itself has the stated boundary: an upload of
exactly `50*1024*1024` bytes passes the read loop (which returns the full
size) and the request is answered with status 200, while an upload of one
more byte trips the check.  The claim's "rejected with 400" is however
falsified by the code: the rejection reaches the client as a 500 wrapping
the 400 detail, because the blanket `except Exception` catches the
`HTTPException(400)`. -/
theorem C5_size_boundary :
    readLoop chunks50MiB 0 = Except.ok (50 * 1024 * 1024) ∧
    statusOf (analyze_audio_handler ⟨some "audio/wav", chunks50MiB⟩
        (LibEnv.available (Except.ok dC5))).1 = 200 ∧
    (analyze_audio_handler ⟨some "audio/wav", chunks50MiB⟩
        (LibEnv.available (Except.ok dC5))).1 = Except.ok (buildLibrosaResponse dC5) ∧
    (analyze_audio_handler ⟨some "audio/wav", chunks50MiBplus1⟩
        (LibEnv.available (Except.ok dC5))).1 =
      Except.error (Exc.http 500 "Audio analysis failed: 400: File too large (max 50MB)") ∧
    statusOf (analyze_audio_handler ⟨some "audio/wav", chunks50MiBplus1⟩
        (LibEnv.available (Except.ok dC5))).1 = 500 := by
  have hok := handler_librosa_ok (some "audio/wav") chunks50MiB dC5
    (by decide) (by rw [chunks50MiB_sum]; decide)
  have hover := handler_oversize (some "audio/wav") chunks50MiBplus1
    (LibEnv.available (Except.ok dC5)) (by decide)
    (by rw [chunks50MiBplus1_sum]; simp [sizeLimit])
  refine ⟨?_, ?_, ?_, ?_, ?_⟩
  · have h := readLoop_ok chunks50MiB 0 (by rw [chunks50MiB_sum]; decide)
    rw [Nat.zero_add, chunks50MiB_sum] at h
    exact h
  · rw [hok]
    rfl
  · rw [hok]
  · rw [hover]
  · rw [hover]
    rfl

/-- Claim C7.  With the decoding library unavailable, every accepted
`audio/*` upload of `N` bytes is answered 200 with the fixed fallback
values, the duration estimate `N / (1024*1024) * 10`, and the marker
`analysis_method = "fallback"`. -/
theorem C7_fallback_defaults (ct : String) (chunks : List Nat)
    (hct : contentTypeOk (some ct) = true) (hsz : chunks.sum ≤ sizeLimit) :
    (analyze_audio_handler ⟨some ct, chunks⟩ LibEnv.unavailable).1 =
      Except.ok (AnalysisResponse.mk 120 "C Major" 0.3 44100
        ((chunks.sum : ℚ) / (1024 * 1024) * 10) "fallback"
        (some "Librosa not available - using estimated values")) ∧
    statusOf (analyze_audio_handler ⟨some ct, chunks⟩ LibEnv.unavailable).1 = 200 := by
  have h := handler_fallback_path (some ct) chunks hct hsz
  exact ⟨by rw [h]; rfl, by rw [h]; rfl⟩

/-- Witness for C7: a 2 MiB upload (256 chunks of 8192 bytes) with an
`audio/*` content type, against the unavailable-library environment. -/
theorem C7_fallback_defaults_witness :
    (analyze_audio_handler ⟨some "audio/mpeg", List.replicate 256 8192⟩
        LibEnv.unavailable).1 =
      Except.ok (AnalysisResponse.mk 120 "C Major" 0.3 44100
        (((List.replicate 256 8192 : List Nat).sum : ℚ) / (1024 * 1024) * 10) "fallback"
        (some "Librosa not available - using estimated values")) ∧
    statusOf (analyze_audio_handler ⟨some "audio/mpeg", List.replicate 256 8192⟩
        LibEnv.unavailable).1 = 200 :=
  C7_fallback_defaults "audio/mpeg" (List.replicate 256 8192) (by decide) (by decide)

/-- Claim C8.  On every exit path after the temporary decoded-audio file
has been created — normal return or exception — the `finally` block removes
it before the handler returns: the librosa region never exits with the file
present, and consequently no run of the whole handler leaves it behind. -/
theorem C8_temp_file_released :
    (∀ res : Except String LibrosaData, (librosaPath res).2 = false) ∧
    (∀ (req : UploadRequest) (env : LibEnv), (analyze_audio_handler req env).2 = false) := by
  refine ⟨fun res => rfl, fun req env => ?_⟩
  have h := inner_snd_false req env
  unfold analyze_audio_handler
  rcases hi : analyze_audio_inner req env with ⟨r, b⟩
  rw [hi] at h
  simp at h
  subst h
  rcases r with e | v
  · rfl
  · rfl

/-! ## The key heuristic: characterising `np.argmax` and the scale choice -/

theorem getD_eq_getElem_of_lt (l : List ℚ) (n : Nat) (h : n < l.length) :
    l.getD n 0 = l[n] := by
  rw [List.getD_eq_getElem?_getD, List.getElem?_eq_getElem h, Option.getD_some]

/-- Every element is bounded by `npMax`. -/
theorem le_npMax (l : List ℚ) (x : ℚ) (hx : x ∈ l) : x ≤ npMax l := by
  induction l with
  | nil => cases hx
  | cons a t ih =>
    cases t with
    | nil =>
      rcases List.mem_cons.mp hx with h | h
      · subst h; exact le_refl _
      · cases h
    | cons b u =>
      rcases List.mem_cons.mp hx with h | h
      · subst h
        exact le_max_left _ _
      · exact le_trans (ih h) (le_max_right _ _)

/-- `npMax` of a nonempty list is one of its elements. -/
theorem npMax_mem (l : List ℚ) (h : l ≠ []) : npMax l ∈ l := by
  induction l with
  | nil => exact absurd rfl h
  | cons a t ih =>
    cases t with
    | nil => simp [npMax]
    | cons b u =>
      have hmax : npMax (a :: b :: u) = max a (npMax (b :: u)) := rfl
      rcases le_total a (npMax (b :: u)) with hle | hle
      · rw [hmax, max_eq_right hle]
        exact List.mem_cons_of_mem a (ih (by simp))
      · rw [hmax, max_eq_left hle]
        exact List.mem_cons_self a _

/-- The argmax index is in bounds for a nonempty list. -/
theorem npArgmax_lt_length (l : List ℚ) (h : l ≠ []) : npArgmax l < l.length :=
  List.findIdx_lt_length_of_exists ⟨npMax l, npMax_mem l h, by simp⟩

/-- The entry at the argmax index is the maximum. -/
theorem npArgmax_getD (l : List ℚ) (h : l ≠ []) : l.getD (npArgmax l) 0 = npMax l := by
  have hlt := npArgmax_lt_length l h
  have hp := @List.findIdx_getElem ℚ (fun v => decide (v = npMax l)) l hlt
  rw [getD_eq_getElem_of_lt l _ hlt]
  exact of_decide_eq_true hp

/-- Entries strictly before the argmax index are strictly below the
maximum: `np.argmax` resolves ties to the lowest index. -/
theorem npArgmax_first (l : List ℚ) (h : l ≠ []) (j : Nat) (hj : j < npArgmax l) :
    l.getD j 0 < l.getD (npArgmax l) 0 := by
  have hlen : j < l.length :=
    Nat.lt_of_lt_of_le hj (List.findIdx_le_length _)
  have hne : decide (l[j] = npMax l) = false := List.not_of_lt_findIdx hj
  have hne' : l[j] ≠ npMax l := by simpa using hne
  have hle : l[j] ≤ npMax l := le_npMax l _ (List.get_mem l j hlen)
  rw [getD_eq_getElem_of_lt l _ hlen, npArgmax_getD l h]
  exact lt_of_le_of_ne hle hne'

/-- Claim C3.  For every 12-element averaged chroma profile, the heuristic
picks as tonic the first index attaining the maximum (ties to the lowest
index), labels "Major" exactly when the energy at `(tonic+4) % 12` strictly
exceeds the energy at `(tonic+3) % 12` (equal thirds give "Minor"), and
outputs `"<name> <Major|Minor>"` with the name read from the fixed table at
the tonic index. -/
theorem C3_key_heuristic (a : List ℚ) (h : a.length = 12) :
    npArgmax a < 12 ∧
    (∀ j, j < 12 → a.getD j 0 ≤ a.getD (npArgmax a) 0) ∧
    (∀ j, j < npArgmax a → a.getD j 0 < a.getD (npArgmax a) 0) ∧
    detect_key a =
      key_mapping.getD (npArgmax a) "" ++ " " ++
        (if a.getD ((npArgmax a + 4) % 12) 0 > a.getD ((npArgmax a + 3) % 12) 0
         then "Major" else "Minor") := by
  have hne : a ≠ [] := by
    intro hnil
    rw [hnil] at h
    simp at h
  refine ⟨?_, ?_, npArgmax_first a hne, rfl⟩
  · have hlt := npArgmax_lt_length a hne
    rwa [h] at hlt
  · intro j hj
    have hjlen : j < a.length := by rw [h]; exact hj
    rw [getD_eq_getElem_of_lt a j hjlen, npArgmax_getD a hne]
    exact le_npMax a _ (List.get_mem a j hjlen)

/-- A concrete 12-element chroma profile: maximum at pitch class 0 and a
strong major third. -/
def profC3 : List ℚ := [2, 0, 0, 0, 1, 0, 0, 0, 0, 0, 0, 0]

/-- Witness for C3: on `profC3` the heuristic reports "C Major". -/
theorem C3_key_heuristic_witness :
    npArgmax profC3 < 12 ∧
    (∀ j, j < 12 → profC3.getD j 0 ≤ profC3.getD (npArgmax profC3) 0) ∧
    (∀ j, j < npArgmax profC3 → profC3.getD j 0 < profC3.getD (npArgmax profC3) 0) ∧
    detect_key profC3 =
      key_mapping.getD (npArgmax profC3) "" ++ " " ++
        (if profC3.getD ((npArgmax profC3 + 4) % 12) 0 >
            profC3.getD ((npArgmax profC3 + 3) % 12) 0
         then "Major" else "Minor") :=
  C3_key_heuristic profC3 rfl

/-! ## The confidence formula and its rounding -/

/-- Claim C4.  The confidence computed on the librosa path equals
`min(0.95, 0.7 + std/1000 * 0.25)`; it is monotonically non-decreasing in
the spectral-centroid standard deviation, never exceeds 0.95, and reaches
exactly 0.95 once the standard deviation is at least 1000. -/
theorem C4_confidence_monotone_clamped (s t : ℚ) (hst : s ≤ t) :
    confidence s = min 0.95 (0.7 + s / 1000 * 0.25) ∧
    confidence s ≤ confidence t ∧
    confidence s ≤ 0.95 ∧
    (1000 ≤ s → confidence s = 0.95) := by
  refine ⟨rfl, ?_, min_le_left _ _, ?_⟩
  · exact min_le_min (le_refl _) (by linarith)
  · intro hs
    exact min_eq_left (by linarith)

/-- Witness for C4 at `s = 1000`, `t = 2000`: the formula holds, the value
at 1000 is below the value at 2000, and both sit at the 0.95 clamp. -/
theorem C4_confidence_monotone_clamped_witness :
    confidence 1000 = min 0.95 (0.7 + 1000 / 1000 * 0.25) ∧
    confidence 1000 ≤ confidence 2000 ∧
    confidence 1000 ≤ 0.95 ∧
    (1000 ≤ (1000:ℚ) → confidence 1000 = 0.95) :=
  C4_confidence_monotone_clamped 1000 2000 (by norm_num)

/-- `roundHalfEven` never rounds below an integer lower bound. -/
theorem roundHalfEven_ge (q : ℚ) (n : ℤ) (h : (n : ℚ) ≤ q) : n ≤ roundHalfEven q := by
  have hfl : n ≤ ⌊q⌋ := Int.le_floor.mpr h
  unfold roundHalfEven
  split
  · exact hfl
  · split
    · omega
    · split
      · exact hfl
      · omega

/-- `roundHalfEven` never rounds above an integer upper bound. -/
theorem roundHalfEven_le (q : ℚ) (n : ℤ) (h : q ≤ (n : ℚ)) : roundHalfEven q ≤ n := by
  have hfl : ⌊q⌋ ≤ n := by
    have hm := Int.floor_le_floor h
    rwa [Int.floor_intCast] at hm
  unfold roundHalfEven
  split
  · exact hfl
  · rename_i h1
    push_neg at h1
    have hflq : (⌊q⌋ : ℚ) < q := by
      have hfr := Int.floor_le q
      linarith
    have hlt : ⌊q⌋ < n := by
      have hc : (⌊q⌋ : ℚ) < (n : ℚ) := lt_of_lt_of_le hflq h
      exact_mod_cast hc
    split
    · omega
    · split
      · exact hfl
      · omega

/-- Two-decimal rounding preserves a lower bound that is a multiple of
1/100. -/
theorem pythonRound2_ge (x : ℚ) (k : ℤ) (h : (k : ℚ) / 100 ≤ x) :
    (k : ℚ) / 100 ≤ pythonRound2 x := by
  unfold pythonRound2
  have h1 : (k : ℚ) ≤ x * 100 := by linarith
  have h2 : k ≤ roundHalfEven (x * 100) := roundHalfEven_ge _ _ h1
  have h3 : (k : ℚ) ≤ ((roundHalfEven (x * 100) : ℤ) : ℚ) := by exact_mod_cast h2
  linarith

/-- Two-decimal rounding preserves an upper bound that is a multiple of
1/100. -/
theorem pythonRound2_le (x : ℚ) (k : ℤ) (h : x ≤ (k : ℚ) / 100) :
    pythonRound2 x ≤ (k : ℚ) / 100 := by
  unfold pythonRound2
  have h1 : x * 100 ≤ (k : ℚ) := by linarith
  have h2 : roundHalfEven (x * 100) ≤ k := roundHalfEven_le _ _ h1
  have h3 : ((roundHalfEven (x * 100) : ℤ) : ℚ) ≤ (k : ℚ) := by exact_mod_cast h2
  linarith

/-- Claim C10.  On the librosa path, the confidence placed in the response
is the heuristic value rounded to two decimal places, and it always lies in
`[0.7, 0.95]` (the additive base of the formula is 0.7 and the standard
deviation is non-negative). -/
theorem C10_confidence_rounded_bounded (d : LibrosaData) (hs : 0 ≤ d.centroidStd) :
    ∃ r : AnalysisResponse,
      (librosaPath (Except.ok d)).1 = Except.ok r ∧
      r.confidence = pythonRound2 (confidence d.centroidStd) ∧
      0.7 ≤ r.confidence ∧ r.confidence ≤ 0.95 := by
  refine ⟨buildLibrosaResponse d, rfl, rfl, ?_, ?_⟩
  · have hc : ((70 : ℤ) : ℚ) / 100 ≤ confidence d.centroidStd := by
      apply le_min
      · norm_num
      · push_cast
        linarith
    have hr := pythonRound2_ge (confidence d.centroidStd) 70 hc
    have heq : ((70 : ℤ) : ℚ) / 100 = (0.7 : ℚ) := by norm_num
    rw [heq] at hr
    exact hr
  · have hc : confidence d.centroidStd ≤ ((95 : ℤ) : ℚ) / 100 := by
      have hm : confidence d.centroidStd ≤ (0.95 : ℚ) := min_le_left _ _
      have he : ((95 : ℤ) : ℚ) / 100 = (0.95 : ℚ) := by norm_num
      rw [he]
      exact hm
    have hr := pythonRound2_le (confidence d.centroidStd) 95 hc
    have heq : ((95 : ℤ) : ℚ) / 100 = (0.95 : ℚ) := by norm_num
    rw [heq] at hr
    exact hr

/-- A concrete librosa outcome with zero centroid deviation. -/
def dC10 : LibrosaData :=
  { audioLen := 0, sr := 22050, tempo := 0,
    chroma := List.replicate 12 [1], centroidStd := 0 }

/-- Witness for C10 at a concrete analysis outcome with
`centroidStd = 0`. -/
theorem C10_confidence_rounded_bounded_witness :
    ∃ r : AnalysisResponse,
      (librosaPath (Except.ok dC10)).1 = Except.ok r ∧
      r.confidence = pythonRound2 (confidence dC10.centroidStd) ∧
      0.7 ≤ r.confidence ∧ r.confidence ≤ 0.95 :=
  C10_confidence_rounded_bounded dC10 (le_refl 0)

/-! ## src/lib/audio_features.py — feature-vector assembly

Each family function of `ComprehensiveAudioFeatureExtractor` is embedded as
a function from the values the librosa/numpy calls return (oracle data; an
`Except.error` stands for an exception raised inside the family's librosa
computation) to the family's contribution to the feature dictionary,
modelled as an association list in insertion order.  Statistics that numpy
computes (means, standard deviations, maxima, sqrt-based RMS values) are
carried as oracle rationals; arithmetic performed by the repository's own
code (energies as sums of squares, ratios, the `1/(1+std)` regularity, the
`max - min` ranges, the onset rate) is embedded directly.

Fixed shapes follow the librosa defaults the code relies on:
`spectral_contrast` has 7 rows, `poly_features` (order 1) has 2 rows, MFCC
uses `n_mfcc = 20`, chroma has 12 pitch classes (hard-coded loops in the
source), tonnetz has 6 rows, and the mel spectrogram has `nBands` bands of
which the first `min(20, nBands)` are emitted. -/

/-- A feature dictionary: keys with rational values, in insertion order. -/
abbrev Feats := List (String × ℚ)

/-- Mean / standard deviation / max / min of a frame sequence, as computed
by numpy on the library's output. -/
structure Stats4 where
  mean : ℚ
  std : ℚ
  mx : ℚ
  mn : ℚ

/-- The `<pfx>_mean/std/max/min` quadruple used by several families. -/
def stats4Feats (pfx : String) (s : Stats4) : Feats :=
  [(pfx ++ "_mean", s.mean), (pfx ++ "_std", s.std),
   (pfx ++ "_max", s.mx), (pfx ++ "_min", s.mn)]

/-- Oracle data for `extract_basic_properties` (lines 54-77): rms and zcr
frame statistics. -/
structure BasicData where
  rms : Stats4
  zcr : Stats4

/-- The dictionary built by the body of `extract_basic_properties`. -/
def basicFeats (yLen sr : Nat) (d : BasicData) : Feats :=
  [("duration", (yLen : ℚ) / (sr : ℚ)),
   ("sample_rate", (sr : ℚ)),
   ("total_samples", (yLen : ℚ))]
  ++ stats4Feats "rms" d.rms ++ stats4Feats "zcr" d.zcr

/-- `extract_basic_properties` (lines 54-77).  No try/except guard: an
exception in the librosa computation propagates. -/
def extract_basic_properties (yLen sr : Nat) (res : Except String BasicData) :
    Except String Feats :=
  res.map (basicFeats yLen sr)

/-- Oracle data for `extract_spectral_features` (lines 79-123). -/
structure SpectralData where
  centroid : Stats4
  bandwidth : Stats4
  rolloff : Stats4
  contrastMean : Nat → ℚ
  contrastStd : Nat → ℚ
  flatness : Stats4
  polyMean : Nat → ℚ
  polyStd : Nat → ℚ

/-- `extract_spectral_features` (lines 79-123).  Note the key naming:
`spectral_contrast_{i+1}_...` is 1-based while `poly_feature_{i}_...` is
0-based, exactly as in the source.  No try/except guard. -/
def spectralFeats (d : SpectralData) : Feats :=
  stats4Feats "spectral_centroid" d.centroid ++
  stats4Feats "spectral_bandwidth" d.bandwidth ++
  stats4Feats "spectral_rolloff" d.rolloff ++
  ((List.range 7).flatMap (fun i =>
    [("spectral_contrast_" ++ toString (i + 1) ++ "_mean", d.contrastMean i),
     ("spectral_contrast_" ++ toString (i + 1) ++ "_std", d.contrastStd i)])) ++
  stats4Feats "spectral_flatness" d.flatness ++
  ((List.range 2).flatMap (fun i =>
    [("poly_feature_" ++ toString i ++ "_mean", d.polyMean i),
     ("poly_feature_" ++ toString i ++ "_std", d.polyStd i)]))

def extract_spectral_features (res : Except String SpectralData) : Except String Feats :=
  res.map spectralFeats

/-- Oracle data for `extract_mfcc_features` (lines 125-151): per-coefficient
statistics and delta statistics. -/
structure MfccData where
  stats : Nat → Stats4
  deltaMean : Nat → ℚ
  deltaStd : Nat → ℚ
  delta2Mean : Nat → ℚ
  delta2Std : Nat → ℚ

/-- `extract_mfcc_features` (lines 125-151) with the default `n_mfcc = 20`;
the `_range` entry is computed in the source as `max - min`.  No try/except
guard. -/
def mfccFeats (d : MfccData) : Feats :=
  ((List.range 20).flatMap (fun i =>
    [("mfcc_" ++ toString (i + 1) ++ "_mean", (d.stats i).mean),
     ("mfcc_" ++ toString (i + 1) ++ "_std", (d.stats i).std),
     ("mfcc_" ++ toString (i + 1) ++ "_max", (d.stats i).mx),
     ("mfcc_" ++ toString (i + 1) ++ "_min", (d.stats i).mn),
     ("mfcc_" ++ toString (i + 1) ++ "_range", (d.stats i).mx - (d.stats i).mn)])) ++
  ((List.range 20).flatMap (fun i =>
    [("mfcc_delta_" ++ toString (i + 1) ++ "_mean", d.deltaMean i),
     ("mfcc_delta_" ++ toString (i + 1) ++ "_std", d.deltaStd i)])) ++
  ((List.range 20).flatMap (fun i =>
    [("mfcc_delta2_" ++ toString (i + 1) ++ "_mean", d.delta2Mean i),
     ("mfcc_delta2_" ++ toString (i + 1) ++ "_std", d.delta2Std i)]))

def extract_mfcc_features (res : Except String MfccData) : Except String Feats :=
  res.map mfccFeats

/-- Oracle data for `extract_chroma_features` (lines 153-175). -/
structure ChromaData where
  stftMean : Nat → ℚ
  stftStd : Nat → ℚ
  cqtMean : Nat → ℚ
  cqtStd : Nat → ℚ
  censMean : Nat → ℚ
  censStd : Nat → ℚ

/-- `extract_chroma_features` (lines 153-175); the loops over the 12 pitch
classes are hard-coded in the source.  No try/except guard. -/
def chromaFeats (d : ChromaData) : Feats :=
  ((List.range 12).flatMap (fun i =>
    [("chroma_stft_" ++ toString (i + 1) ++ "_mean", d.stftMean i),
     ("chroma_stft_" ++ toString (i + 1) ++ "_std", d.stftStd i)])) ++
  ((List.range 12).flatMap (fun i =>
    [("chroma_cqt_" ++ toString (i + 1) ++ "_mean", d.cqtMean i),
     ("chroma_cqt_" ++ toString (i + 1) ++ "_std", d.cqtStd i)])) ++
  ((List.range 12).flatMap (fun i =>
    [("chroma_cens_" ++ toString (i + 1) ++ "_mean", d.censMean i),
     ("chroma_cens_" ++ toString (i + 1) ++ "_std", d.censStd i)]))

def extract_chroma_features (res : Except String ChromaData) : Except String Feats :=
  res.map chromaFeats

/-- Oracle data for `extract_tonnetz_features` (lines 177-190). -/
structure TonnetzData where
  stats : Nat → Stats4

/-- `extract_tonnetz_features` (lines 177-190); tonnetz has 6 rows.
No try/except guard. -/
def tonnetzFeats (d : TonnetzData) : Feats :=
  (List.range 6).flatMap (fun i =>
    stats4Feats ("tonnetz_" ++ toString (i + 1)) (d.stats i))

def extract_tonnetz_features (res : Except String TonnetzData) : Except String Feats :=
  res.map tonnetzFeats

/-- Oracle data for the beat-tracking half of `extract_rhythm_features`
(lines 197-217): the tempo, the number of tracked beats, and the numpy
statistics of the beat intervals. -/
structure BeatData where
  tempo : ℚ
  beatCount : Nat
  intervalsMean : ℚ
  intervalsStd : ℚ

/-- Oracle data for the onset-detection half of `extract_rhythm_features`
(lines 220-237). -/
structure OnsetData where
  onsetCount : Nat
  intervalsMean : ℚ
  intervalsStd : ℚ

/-- `extract_rhythm_features` (lines 192-239).  Both halves are guarded by
their own `try`/`except`: a failure anywhere inside a half replaces that
half's entries with the zero defaults (a partially-filled dict is
overwritten key-by-key by the `except` branch, so the net effect is the
default list).  The regularity `1/(1 + std)` and the onset rate
`count / (len(y)/sr)` are computed by the repository's own code. -/
def beatHalf (beatRes : Except String BeatData) : Feats :=
  match beatRes with
  | Except.ok d =>
    [("tempo", d.tempo), ("beat_count", (d.beatCount : ℚ))] ++
    (if d.beatCount > 1 then
       [("beat_intervals_mean", d.intervalsMean),
        ("beat_intervals_std", d.intervalsStd),
        ("beat_regularity", 1 / (1 + d.intervalsStd))]
     else
       [("beat_intervals_mean", 0), ("beat_intervals_std", 0), ("beat_regularity", 0)])
  | Except.error _ =>
    [("tempo", 0), ("beat_count", 0), ("beat_intervals_mean", 0),
     ("beat_intervals_std", 0), ("beat_regularity", 0)]

def onsetHalf (yLen sr : Nat) (onsetRes : Except String OnsetData) : Feats :=
  match onsetRes with
  | Except.ok d =>
    [("onset_count", (d.onsetCount : ℚ)),
     ("onset_rate", (d.onsetCount : ℚ) / ((yLen : ℚ) / (sr : ℚ)))] ++
    (if d.onsetCount > 1 then
       [("onset_intervals_mean", d.intervalsMean),
        ("onset_intervals_std", d.intervalsStd)]
     else
       [("onset_intervals_mean", 0), ("onset_intervals_std", 0)])
  | Except.error _ =>
    [("onset_count", 0), ("onset_rate", 0),
     ("onset_intervals_mean", 0), ("onset_intervals_std", 0)]

def extract_rhythm_features (yLen sr : Nat) (beatRes : Except String BeatData)
    (onsetRes : Except String OnsetData) : Feats :=
  beatHalf beatRes ++ onsetHalf yLen sr onsetRes

/-- Oracle data for `extract_harmonic_percussive_features` (lines 241-273):
the two separated components returned by `librosa.effects.hpss`, plus the
sqrt-based RMS values numpy computes from them. -/
structure HpssData where
  yh : List ℚ
  yp : List ℚ
  harmonicRms : ℚ
  percussiveRms : ℚ

/-- `np.sum(y ** 2)`: the energy of a component. -/
def sumSq (l : List ℚ) : ℚ := (l.map (fun x => x * x)).sum

/-- `extract_harmonic_percussive_features` (lines 241-273), guarded by
`try`/`except`.  The energies are sums of squares of the separated
components; the ratio entries divide by the total energy only when it is
strictly positive and are 0.0 otherwise. -/
def extract_harmonic_percussive_features (res : Except String HpssData) : Feats :=
  match res with
  | Except.ok d =>
    [("harmonic_energy", sumSq d.yh), ("harmonic_rms", d.harmonicRms),
     ("percussive_energy", sumSq d.yp), ("percussive_rms", d.percussiveRms)] ++
    (if sumSq d.yh + sumSq d.yp > 0 then
       [("harmonic_ratio", sumSq d.yh / (sumSq d.yh + sumSq d.yp)),
        ("percussive_ratio", sumSq d.yp / (sumSq d.yh + sumSq d.yp))]
     else
       [("harmonic_ratio", 0), ("percussive_ratio", 0)])
  | Except.error _ =>
    [("harmonic_energy", 0), ("harmonic_rms", 0), ("percussive_energy", 0),
     ("percussive_rms", 0), ("harmonic_ratio", 0), ("percussive_ratio", 0)]

/-- Oracle data for `extract_mel_features` (lines 275-293): the spectrogram
statistics, the number of mel bands (`len(mel_bands)`, 128 by default), and
the per-band means. -/
structure MelData where
  spec : Stats4
  nBands : Nat
  band : Nat → ℚ

/-- `extract_mel_features` (lines 275-293); emits the first
`min(20, len(mel_bands))` band means.  No try/except guard. -/
def melFeats (d : MelData) : Feats :=
  stats4Feats "mel_spectrogram" d.spec ++
  (List.range (min 20 d.nBands)).map (fun i =>
    ("mel_band_" ++ toString (i + 1), d.band i))

def extract_mel_features (res : Except String MelData) : Except String Feats :=
  res.map melFeats

/-- Oracle data for `extract_tempogram_features` (lines 295-321). -/
structure TempogramData where
  tg : Stats4
  fourierMean : ℚ
  fourierStd : ℚ

/-- `extract_tempogram_features` (lines 295-321), guarded by
`try`/`except` with zero defaults. -/
def extract_tempogram_features (res : Except String TempogramData) : Feats :=
  match res with
  | Except.ok d =>
    [("tempogram_mean", d.tg.mean), ("tempogram_std", d.tg.std),
     ("tempogram_max", d.tg.mx), ("tempogram_min", d.tg.mn),
     ("fourier_tempogram_mean", d.fourierMean), ("fourier_tempogram_std", d.fourierStd)]
  | Except.error _ =>
    [("tempogram_mean", 0), ("tempogram_std", 0), ("tempogram_max", 0),
     ("tempogram_min", 0), ("fourier_tempogram_mean", 0), ("fourier_tempogram_std", 0)]

/-- One run of the extractor on one input file: the outcome of
`load_audio` (decoded length and sample rate) and of each family's librosa
computation. -/
structure ExtractionEnv where
  loadRes : Except String (Nat × Nat)
  basic : Except String BasicData
  spectral : Except String SpectralData
  mfcc : Except String MfccData
  chroma : Except String ChromaData
  tonnetz : Except String TonnetzData
  beat : Except String BeatData
  onset : Except String OnsetData
  hpss : Except String HpssData
  mel : Except String MelData
  tempogramRes : Except String TempogramData

/-- `extract_all_features` (lines 323-383): load the audio, then
`features.update(...)` each family in order.  There is no guard around the
call chain, so an exception escaping any unguarded family (basic, spectral,
MFCC, chroma, tonnetz, mel) — or the load itself — aborts the whole
extraction; the guarded families (rhythm, harmonic-percussive, tempogram)
always contribute.  The `file_path`/`extraction_params`/
`total_features_extracted` metadata entries are bookkeeping outside the
per-family column set and are not modelled. -/
def extract_all_features (env : ExtractionEnv) : Except String Feats := do
  let (yLen, sr) ← env.loadRes
  let fBasic ← extract_basic_properties yLen sr env.basic
  let fSpectral ← extract_spectral_features env.spectral
  let fMfcc ← extract_mfcc_features env.mfcc
  let fChroma ← extract_chroma_features env.chroma
  let fTonnetz ← extract_tonnetz_features env.tonnetz
  let fRhythm := extract_rhythm_features yLen sr env.beat env.onset
  let fHpss := extract_harmonic_percussive_features env.hpss
  let fMel ← extract_mel_features env.mel
  let fTempogram := extract_tempogram_features env.tempogramRes
  pure (fBasic ++ fSpectral ++ fMfcc ++ fChroma ++ fTonnetz ++
        fRhythm ++ fHpss ++ fMel ++ fTempogram)

/-! ## The column set -/

def stats4Keys (pfx : String) : List String :=
  [pfx ++ "_mean", pfx ++ "_std", pfx ++ "_max", pfx ++ "_min"]

def basicKeys : List String :=
  ["duration", "sample_rate", "total_samples"] ++ stats4Keys "rms" ++ stats4Keys "zcr"

def spectralKeys : List String :=
  stats4Keys "spectral_centroid" ++ stats4Keys "spectral_bandwidth" ++
  stats4Keys "spectral_rolloff" ++
  ((List.range 7).flatMap (fun i =>
    ["spectral_contrast_" ++ toString (i + 1) ++ "_mean",
     "spectral_contrast_" ++ toString (i + 1) ++ "_std"])) ++
  stats4Keys "spectral_flatness" ++
  ((List.range 2).flatMap (fun i =>
    ["poly_feature_" ++ toString i ++ "_mean",
     "poly_feature_" ++ toString i ++ "_std"]))

def mfccKeys : List String :=
  ((List.range 20).flatMap (fun i =>
    ["mfcc_" ++ toString (i + 1) ++ "_mean",
     "mfcc_" ++ toString (i + 1) ++ "_std",
     "mfcc_" ++ toString (i + 1) ++ "_max",
     "mfcc_" ++ toString (i + 1) ++ "_min",
     "mfcc_" ++ toString (i + 1) ++ "_range"])) ++
  ((List.range 20).flatMap (fun i =>
    ["mfcc_delta_" ++ toString (i + 1) ++ "_mean",
     "mfcc_delta_" ++ toString (i + 1) ++ "_std"])) ++
  ((List.range 20).flatMap (fun i =>
    ["mfcc_delta2_" ++ toString (i + 1) ++ "_mean",
     "mfcc_delta2_" ++ toString (i + 1) ++ "_std"]))

def chromaKeys : List String :=
  ((List.range 12).flatMap (fun i =>
    ["chroma_stft_" ++ toString (i + 1) ++ "_mean",
     "chroma_stft_" ++ toString (i + 1) ++ "_std"])) ++
  ((List.range 12).flatMap (fun i =>
    ["chroma_cqt_" ++ toString (i + 1) ++ "_mean",
     "chroma_cqt_" ++ toString (i + 1) ++ "_std"])) ++
  ((List.range 12).flatMap (fun i =>
    ["chroma_cens_" ++ toString (i + 1) ++ "_mean",
     "chroma_cens_" ++ toString (i + 1) ++ "_std"]))

def tonnetzKeys : List String :=
  (List.range 6).flatMap (fun i => stats4Keys ("tonnetz_" ++ toString (i + 1)))

def beatKeys : List String :=
  ["tempo", "beat_count", "beat_intervals_mean", "beat_intervals_std", "beat_regularity"]

def onsetKeys : List String :=
  ["onset_count", "onset_rate", "onset_intervals_mean", "onset_intervals_std"]

def rhythmKeys : List String := beatKeys ++ onsetKeys

def hpssKeys : List String :=
  ["harmonic_energy", "harmonic_rms", "percussive_energy", "percussive_rms",
   "harmonic_ratio", "percussive_ratio"]

def melKeys (nBands : Nat) : List String :=
  stats4Keys "mel_spectrogram" ++
  (List.range (min 20 nBands)).map (fun i => "mel_band_" ++ toString (i + 1))

def tempogramKeys : List String :=
  ["tempogram_mean", "tempogram_std", "tempogram_max", "tempogram_min",
   "fourier_tempogram_mean", "fourier_tempogram_std"]

/-- The full column set of one extractor run, fixed up to the number of mel
bands the library reports. -/
def fullKeys (nBands : Nat) : List String :=
  basicKeys ++ spectralKeys ++ mfccKeys ++ chromaKeys ++ tonnetzKeys ++
  rhythmKeys ++ hpssKeys ++ melKeys nBands ++ tempogramKeys

/-! ## Key-set lemmas: each family emits its fixed keys on every path -/

theorem basicFeats_keys (yLen sr : Nat) (d : BasicData) :
    (basicFeats yLen sr d).map Prod.fst = basicKeys := rfl

theorem spectralFeats_keys (d : SpectralData) :
    (spectralFeats d).map Prod.fst = spectralKeys := rfl

theorem mfccFeats_keys (d : MfccData) :
    (mfccFeats d).map Prod.fst = mfccKeys := rfl

theorem chromaFeats_keys (d : ChromaData) :
    (chromaFeats d).map Prod.fst = chromaKeys := rfl

theorem tonnetzFeats_keys (d : TonnetzData) :
    (tonnetzFeats d).map Prod.fst = tonnetzKeys := rfl

theorem beatHalf_keys (br : Except String BeatData) :
    (beatHalf br).map Prod.fst = beatKeys := by
  rcases br with e | d
  · rfl
  · by_cases h : d.beatCount > 1 <;> simp [beatHalf, h, beatKeys]

theorem onsetHalf_keys (yLen sr : Nat) (onr : Except String OnsetData) :
    (onsetHalf yLen sr onr).map Prod.fst = onsetKeys := by
  rcases onr with e | d
  · rfl
  · by_cases h : d.onsetCount > 1 <;> simp [onsetHalf, h, onsetKeys]

theorem rhythm_keys (yLen sr : Nat) (br : Except String BeatData)
    (onr : Except String OnsetData) :
    (extract_rhythm_features yLen sr br onr).map Prod.fst = rhythmKeys := by
  rw [extract_rhythm_features, rhythmKeys, List.map_append,
    beatHalf_keys, onsetHalf_keys]

theorem hpss_keys (res : Except String HpssData) :
    (extract_harmonic_percussive_features res).map Prod.fst = hpssKeys := by
  rcases res with e | d
  · rfl
  · by_cases h : sumSq d.yh + sumSq d.yp > 0 <;>
      simp [extract_harmonic_percussive_features, h, hpssKeys]

theorem melFeats_keys (d : MelData) :
    (melFeats d).map Prod.fst = melKeys d.nBands := by
  simp [melFeats, melKeys, stats4Feats, stats4Keys, List.map_map, Function.comp]

theorem tempogram_keys (res : Except String TempogramData) :
    (extract_tempogram_features res).map Prod.fst = tempogramKeys := by
  rcases res with e | d <;> rfl

/-! ## Reading an entry back out of the assembled dictionary -/

/-- Reading a key out of the assembled dictionary (Python `features[key]`;
keys are unique by the per-family name discipline, so the first match is
the value). -/
def lookupF (k : String) : Feats → Option ℚ
  | [] => none
  | (k1, v) :: rest => if k = k1 then some v else lookupF k rest

theorem lookupF_append_right (k : String) (l1 l2 : Feats)
    (h : ¬ k ∈ l1.map Prod.fst) :
    lookupF k (l1 ++ l2) = lookupF k l2 := by
  induction l1 with
  | nil => rfl
  | cons p t ih =>
    rcases p with ⟨k1, v1⟩
    simp only [List.map_cons, List.mem_cons, not_or] at h
    simp only [List.cons_append, lookupF, if_neg h.1]
    exact ih h.2

theorem mel_band_key_ne (r : String) : ("mel_band_" ++ r) ≠ "tempogram_mean" := by
  intro hcontra
  have hdata : ("mel_band_").data ++ r.data = ("tempogram_mean").data := by
    rw [← String.data_append, hcontra]
  have hhead : (("mel_band_").data ++ r.data).head? = some 'm' := rfl
  rw [hdata] at hhead
  have hT : (("tempogram_mean").data).head? = some 't' := rfl
  rw [hT] at hhead
  simp at hhead

theorem tempogram_mean_not_in_mel (n : Nat) : ¬ "tempogram_mean" ∈ melKeys n := by
  intro hmem
  rw [melKeys] at hmem
  rcases List.mem_append.mp hmem with h | h
  · revert h
    decide
  · rcases List.mem_map.mp h with ⟨i, _, hi⟩
    exact mel_band_key_ne (toString (i + 1)) hi

/-! ## Assembly of a run with all unguarded families succeeding -/

/-- When the load and every unguarded family succeed, `extract_all_features`
returns the concatenation of all nine family dictionaries (the guarded
families contribute whatever their own guard produced). -/
theorem extract_all_ok (env : ExtractionEnv) (yLen sr : Nat) (bd : BasicData)
    (sd : SpectralData) (md : MfccData) (cd : ChromaData) (td : TonnetzData)
    (meld : MelData)
    (hload : env.loadRes = Except.ok (yLen, sr)) (hb : env.basic = Except.ok bd)
    (hs : env.spectral = Except.ok sd) (hm : env.mfcc = Except.ok md)
    (hc : env.chroma = Except.ok cd) (ht : env.tonnetz = Except.ok td)
    (hml : env.mel = Except.ok meld) :
    extract_all_features env =
      Except.ok (basicFeats yLen sr bd ++ spectralFeats sd ++ mfccFeats md ++
        chromaFeats cd ++ tonnetzFeats td ++
        extract_rhythm_features yLen sr env.beat env.onset ++
        extract_harmonic_percussive_features env.hpss ++ melFeats meld ++
        extract_tempogram_features env.tempogramRes) := by
  unfold extract_all_features
  rw [hload, hb, hs, hm, hc, ht, hml]
  rfl

/-! ## Concrete extraction outcomes used as test inputs -/

def zeroStats : Stats4 := ⟨0, 0, 0, 0⟩

def okBasic : BasicData := ⟨zeroStats, zeroStats⟩

def okSpectral : SpectralData :=
  ⟨zeroStats, zeroStats, zeroStats, fun _ => 0, fun _ => 0, zeroStats,
   fun _ => 0, fun _ => 0⟩

def okMfcc : MfccData := ⟨fun _ => zeroStats, fun _ => 0, fun _ => 0, fun _ => 0, fun _ => 0⟩

def okChroma : ChromaData := ⟨fun _ => 0, fun _ => 0, fun _ => 0, fun _ => 0, fun _ => 0, fun _ => 0⟩

def okTonnetz : TonnetzData := ⟨fun _ => zeroStats⟩

def okBeat : BeatData := ⟨0, 0, 0, 0⟩

def okOnset : OnsetData := ⟨0, 0, 0⟩

def okHpss : HpssData := ⟨[], [], 0, 0⟩

def okMel : MelData := ⟨zeroStats, 128, fun _ => 0⟩

def okTempogram : TempogramData := ⟨zeroStats, 0, 0⟩

/-- A run in which the spectral family's librosa computation raises while
everything else succeeds. -/
def envSpectralFails : ExtractionEnv :=
  { loadRes := Except.ok (0, 22050)
    basic := Except.ok okBasic
    spectral := Except.error "spectral_contrast failed"
    mfcc := Except.ok okMfcc
    chroma := Except.ok okChroma
    tonnetz := Except.ok okTonnetz
    beat := Except.ok okBeat
    onset := Except.ok okOnset
    hpss := Except.ok okHpss
    mel := Except.ok okMel
    tempogramRes := Except.ok okTempogram }

/-- A run in which everything succeeds. -/
def envAllOk : ExtractionEnv :=
  { loadRes := Except.ok (0, 22050)
    basic := Except.ok okBasic
    spectral := Except.ok okSpectral
    mfcc := Except.ok okMfcc
    chroma := Except.ok okChroma
    tonnetz := Except.ok okTonnetz
    beat := Except.ok okBeat
    onset := Except.ok okOnset
    hpss := Except.ok okHpss
    mel := Except.ok okMel
    tempogramRes := Except.ok okTempogram }

/-- A run in which all four guarded computations raise while every
unguarded family succeeds. -/
def envGuardedFail : ExtractionEnv :=
  { loadRes := Except.ok (0, 22050)
    basic := Except.ok okBasic
    spectral := Except.ok okSpectral
    mfcc := Except.ok okMfcc
    chroma := Except.ok okChroma
    tonnetz := Except.ok okTonnetz
    beat := Except.error "beat_track failed"
    onset := Except.error "onset_detect failed"
    hpss := Except.error "hpss failed"
    mel := Except.ok okMel
    tempogramRes := Except.error "tempogram failed" }

/-! ## Claim C2: the vector is not always fully computed -/

/-- Counterexample to claim C2 as stated: in a run where the spectral
family's computation raises (and every other family succeeds), the whole
extraction aborts with that error — no mapping is returned at all, so in
particular no mapping with the full column set. -/
theorem C2_counterexample :
    extract_all_features envSpectralFails = Except.error "spectral_contrast failed" ∧
    ∀ feats : Feats, extract_all_features envSpectralFails ≠ Except.ok feats := by
  refine ⟨rfl, ?_⟩
  intro feats h
  have h2 : Except.error "spectral_contrast failed" = Except.ok feats := h
  simp at h2

/-- Claim C2 (amended).  When the audio load and the unguarded families
(basic, spectral, MFCC, chroma, tonnetz, mel) all succeed, the returned
mapping has the full column set, and a failure in any guarded family
(rhythm/beat, onset, harmonic-percussive, tempogram) is filled with the
neutral default 0.0 rather than omitted.  (When an unguarded family fails,
the extraction instead aborts with an error — see the counterexample.) -/
theorem C2_amended_full_columns (env : ExtractionEnv) (yLen sr : Nat) (bd : BasicData)
    (sd : SpectralData) (md : MfccData) (cd : ChromaData) (td : TonnetzData)
    (meld : MelData)
    (hload : env.loadRes = Except.ok (yLen, sr)) (hb : env.basic = Except.ok bd)
    (hs : env.spectral = Except.ok sd) (hm : env.mfcc = Except.ok md)
    (hc : env.chroma = Except.ok cd) (ht : env.tonnetz = Except.ok td)
    (hml : env.mel = Except.ok meld) :
    ∃ feats : Feats,
      extract_all_features env = Except.ok feats ∧
      feats.map Prod.fst = fullKeys meld.nBands ∧
      (∀ e, env.beat = Except.error e → lookupF "tempo" feats = some 0) ∧
      (∀ e, env.onset = Except.error e → lookupF "onset_count" feats = some 0) ∧
      (∀ e, env.hpss = Except.error e → lookupF "harmonic_energy" feats = some 0) ∧
      (∀ e, env.tempogramRes = Except.error e → lookupF "tempogram_mean" feats = some 0) := by
  refine ⟨_, extract_all_ok env yLen sr bd sd md cd td meld hload hb hs hm hc ht hml,
    ?_, ?_, ?_, ?_, ?_⟩
  · simp only [List.map_append, basicFeats_keys, spectralFeats_keys, mfccFeats_keys,
      chromaFeats_keys, tonnetzFeats_keys, rhythm_keys, hpss_keys, melFeats_keys,
      tempogram_keys, fullKeys]
  · intro e he
    simp only [extract_rhythm_features, List.append_assoc]
    rw [lookupF_append_right _ _ _ (by rw [basicFeats_keys]; decide),
      lookupF_append_right _ _ _ (by rw [spectralFeats_keys]; decide),
      lookupF_append_right _ _ _ (by rw [mfccFeats_keys]; decide),
      lookupF_append_right _ _ _ (by rw [chromaFeats_keys]; decide),
      lookupF_append_right _ _ _ (by rw [tonnetzFeats_keys]; decide), he]
    rfl
  · intro e he
    simp only [extract_rhythm_features, List.append_assoc]
    rw [lookupF_append_right _ _ _ (by rw [basicFeats_keys]; decide),
      lookupF_append_right _ _ _ (by rw [spectralFeats_keys]; decide),
      lookupF_append_right _ _ _ (by rw [mfccFeats_keys]; decide),
      lookupF_append_right _ _ _ (by rw [chromaFeats_keys]; decide),
      lookupF_append_right _ _ _ (by rw [tonnetzFeats_keys]; decide),
      lookupF_append_right _ _ _ (by rw [beatHalf_keys]; decide), he]
    rfl
  · intro e he
    simp only [extract_rhythm_features, List.append_assoc]
    rw [lookupF_append_right _ _ _ (by rw [basicFeats_keys]; decide),
      lookupF_append_right _ _ _ (by rw [spectralFeats_keys]; decide),
      lookupF_append_right _ _ _ (by rw [mfccFeats_keys]; decide),
      lookupF_append_right _ _ _ (by rw [chromaFeats_keys]; decide),
      lookupF_append_right _ _ _ (by rw [tonnetzFeats_keys]; decide),
      lookupF_append_right _ _ _ (by rw [beatHalf_keys]; decide),
      lookupF_append_right _ _ _ (by rw [onsetHalf_keys]; decide), he]
    rfl
  · intro e he
    simp only [extract_rhythm_features, List.append_assoc]
    rw [lookupF_append_right _ _ _ (by rw [basicFeats_keys]; decide),
      lookupF_append_right _ _ _ (by rw [spectralFeats_keys]; decide),
      lookupF_append_right _ _ _ (by rw [mfccFeats_keys]; decide),
      lookupF_append_right _ _ _ (by rw [chromaFeats_keys]; decide),
      lookupF_append_right _ _ _ (by rw [tonnetzFeats_keys]; decide),
      lookupF_append_right _ _ _ (by rw [beatHalf_keys]; decide),
      lookupF_append_right _ _ _ (by rw [onsetHalf_keys]; decide),
      lookupF_append_right _ _ _ (by rw [hpss_keys]; decide),
      lookupF_append_right _ _ _
        (by rw [melFeats_keys]; exact tempogram_mean_not_in_mel meld.nBands), he]
    rfl

/-- Witness for the amended C2 at the all-successful run. -/
theorem C2_amended_full_columns_witness :
    ∃ feats : Feats,
      extract_all_features envAllOk = Except.ok feats ∧
      feats.map Prod.fst = fullKeys okMel.nBands ∧
      (∀ e, envAllOk.beat = Except.error e → lookupF "tempo" feats = some 0) ∧
      (∀ e, envAllOk.onset = Except.error e → lookupF "onset_count" feats = some 0) ∧
      (∀ e, envAllOk.hpss = Except.error e → lookupF "harmonic_energy" feats = some 0) ∧
      (∀ e, envAllOk.tempogramRes = Except.error e → lookupF "tempogram_mean" feats = some 0) :=
  C2_amended_full_columns envAllOk 0 22050 okBasic okSpectral okMfcc okChroma okTonnetz
    okMel rfl rfl rfl rfl rfl rfl rfl

/-! ## Claim C6: the guarded families fail soft with their zero defaults -/

/-- Claim C6.  For the rhythm/beat, onset, harmonic-percussive and
tempogram families, an exception inside the family's computation does not
abort the feature vector: the family's documented zero-valued defaults
(tempo = 0.0, beat_count = 0, onset_count = 0, harmonic_energy = 0.0,
tempogram_mean = 0.0, together with the rest of each family's keys) are
substituted, and `extract_all_features` still returns a mapping whenever
the load and the unguarded families succeed. -/
theorem C6_guarded_families_fail_soft :
    (∀ (yLen sr : Nat) (e1 e2 : String),
      extract_rhythm_features yLen sr (Except.error e1) (Except.error e2) =
        [("tempo", 0), ("beat_count", 0), ("beat_intervals_mean", 0),
         ("beat_intervals_std", 0), ("beat_regularity", 0),
         ("onset_count", 0), ("onset_rate", 0),
         ("onset_intervals_mean", 0), ("onset_intervals_std", 0)]) ∧
    (∀ e : String,
      extract_harmonic_percussive_features (Except.error e) =
        [("harmonic_energy", 0), ("harmonic_rms", 0), ("percussive_energy", 0),
         ("percussive_rms", 0), ("harmonic_ratio", 0), ("percussive_ratio", 0)]) ∧
    (∀ e : String,
      extract_tempogram_features (Except.error e) =
        [("tempogram_mean", 0), ("tempogram_std", 0), ("tempogram_max", 0),
         ("tempogram_min", 0), ("fourier_tempogram_mean", 0),
         ("fourier_tempogram_std", 0)]) ∧
    (∀ (env : ExtractionEnv) (yLen sr : Nat) (bd : BasicData) (sd : SpectralData)
       (md : MfccData) (cd : ChromaData) (td : TonnetzData) (meld : MelData),
      env.loadRes = Except.ok (yLen, sr) → env.basic = Except.ok bd →
      env.spectral = Except.ok sd → env.mfcc = Except.ok md →
      env.chroma = Except.ok cd → env.tonnetz = Except.ok td →
      env.mel = Except.ok meld →
      ∃ feats, extract_all_features env = Except.ok feats) := by
  refine ⟨fun _ _ _ _ => rfl, fun _ => rfl, fun _ => rfl, ?_⟩
  intro env yLen sr bd sd md cd td meld hload hb hs hm hc ht hml
  exact ⟨_, extract_all_ok env yLen sr bd sd md cd td meld hload hb hs hm hc ht hml⟩

/-- Witness for C6: the all-guarded-failures run still yields a mapping,
and each guarded family contributes exactly its zero defaults. -/
theorem C6_guarded_families_fail_soft_witness :
    extract_rhythm_features 0 22050 (Except.error "beat_track failed")
        (Except.error "onset_detect failed") =
      [("tempo", 0), ("beat_count", 0), ("beat_intervals_mean", 0),
       ("beat_intervals_std", 0), ("beat_regularity", 0),
       ("onset_count", 0), ("onset_rate", 0),
       ("onset_intervals_mean", 0), ("onset_intervals_std", 0)] ∧
    extract_harmonic_percussive_features (Except.error "hpss failed") =
      [("harmonic_energy", 0), ("harmonic_rms", 0), ("percussive_energy", 0),
       ("percussive_rms", 0), ("harmonic_ratio", 0), ("percussive_ratio", 0)] ∧
    extract_tempogram_features (Except.error "tempogram failed") =
      [("tempogram_mean", 0), ("tempogram_std", 0), ("tempogram_max", 0),
       ("tempogram_min", 0), ("fourier_tempogram_mean", 0),
       ("fourier_tempogram_std", 0)] ∧
    ∃ feats, extract_all_features envGuardedFail = Except.ok feats :=
  ⟨C6_guarded_families_fail_soft.1 0 22050 "beat_track failed" "onset_detect failed",
   C6_guarded_families_fail_soft.2.1 "hpss failed",
   C6_guarded_families_fail_soft.2.2.1 "tempogram failed",
   C6_guarded_families_fail_soft.2.2.2 envGuardedFail 0 22050 okBasic okSpectral okMfcc
     okChroma okTonnetz okMel rfl rfl rfl rfl rfl rfl rfl⟩

/-! ## Claim C9: the harmonic/percussive ratios are division-safe -/

theorem sumSq_nonneg (l : List ℚ) : 0 ≤ sumSq l := by
  unfold sumSq
  apply List.sum_nonneg
  intro x hx
  rcases List.mem_map.mp hx with ⟨y, _, rfl⟩
  exact mul_self_nonneg y

/-- Claim C9.  In `extract_harmonic_percussive_features`, when
`harmonic_energy + percussive_energy` is 0 both ratios are set to 0.0
without dividing; when the total is positive, each ratio lies in `[0, 1]`
and the two sum to 1. -/
theorem C9_ratio_division_safe (d : HpssData) :
    (sumSq d.yh + sumSq d.yp = 0 →
      lookupF "harmonic_ratio" (extract_harmonic_percussive_features (Except.ok d)) =
        some 0 ∧
      lookupF "percussive_ratio" (extract_harmonic_percussive_features (Except.ok d)) =
        some 0) ∧
    (0 < sumSq d.yh + sumSq d.yp →
      ∃ hr pr : ℚ,
        lookupF "harmonic_ratio" (extract_harmonic_percussive_features (Except.ok d)) =
          some hr ∧
        lookupF "percussive_ratio" (extract_harmonic_percussive_features (Except.ok d)) =
          some pr ∧
        0 ≤ hr ∧ hr ≤ 1 ∧ 0 ≤ pr ∧ pr ≤ 1 ∧ hr + pr = 1) := by
  constructor
  · intro h0
    have hnot : ¬ sumSq d.yh + sumSq d.yp > 0 := by
      rw [h0]
      exact lt_irrefl 0
    simp only [extract_harmonic_percussive_features]
    rw [if_neg hnot]
    exact ⟨rfl, rfl⟩
  · intro hpos
    refine ⟨sumSq d.yh / (sumSq d.yh + sumSq d.yp),
      sumSq d.yp / (sumSq d.yh + sumSq d.yp), ?_, ?_, ?_, ?_, ?_, ?_, ?_⟩
    · simp only [extract_harmonic_percussive_features]
      rw [if_pos hpos]
      rfl
    · simp only [extract_harmonic_percussive_features]
      rw [if_pos hpos]
      rfl
    · exact div_nonneg (sumSq_nonneg _) (le_of_lt hpos)
    · exact (div_le_one hpos).mpr (le_add_of_nonneg_right (sumSq_nonneg _))
    · exact div_nonneg (sumSq_nonneg _) (le_of_lt hpos)
    · exact (div_le_one hpos).mpr (le_add_of_nonneg_left (sumSq_nonneg _))
    · rw [div_add_div_same]
      exact div_self (ne_of_gt hpos)

/-- A separated pair with zero total energy. -/
def hpssZero : HpssData := ⟨[], [], 0, 0⟩

/-- A separated pair with positive total energy. -/
def hpssPos : HpssData := ⟨[1], [1], 0, 0⟩

/-- Witness for C9 at a zero-energy and a positive-energy input. -/
theorem C9_ratio_division_safe_witness :
    (lookupF "harmonic_ratio" (extract_harmonic_percussive_features (Except.ok hpssZero)) =
        some 0 ∧
     lookupF "percussive_ratio" (extract_harmonic_percussive_features (Except.ok hpssZero)) =
        some 0) ∧
    (∃ hr pr : ℚ,
      lookupF "harmonic_ratio" (extract_harmonic_percussive_features (Except.ok hpssPos)) =
        some hr ∧
      lookupF "percussive_ratio" (extract_harmonic_percussive_features (Except.ok hpssPos)) =
        some pr ∧
      0 ≤ hr ∧ hr ≤ 1 ∧ 0 ≤ pr ∧ pr ≤ 1 ∧ hr + pr = 1) :=
  ⟨(C9_ratio_division_safe hpssZero).1 (by simp [sumSq, hpssZero]),
   (C9_ratio_division_safe hpssPos).2 (by norm_num [sumSq, hpssPos])⟩

end BeatFeed
